import Mathlib

/-!
Verification of the HITL hotel-summary pipeline (src/HITL/pipeline.py,
src/HITL/app.py, src/HITL/learning_system.py) against its specification.

Python strings are modelled as Lean `String`; the Python string operations
used by the source (`.lower()`, `.split()`, `in`, `.strip()`, `"sep".join`)
are re-implemented over the underlying character list so that every
definition evaluates by kernel reduction.  Reading a possibly-missing key
of a Python dict (`d.get(k, default)`) is modelled by lookup in an
association list.  The external text-generation calls (OpenAI / Gemini) are
modelled as oracle parameters: a `String` response for the drafter, an
`Except String String` outcome (success content or raised error) for the
learner's two Gemini calls.  Wall-clock time (`datetime.now().isoformat()`)
is modelled as an explicit `now : String` argument to the store step.
-/

namespace HITL

/-- `s.lower()` of Python, over the character list. -/
def lowerStr (s : String) : String := ⟨s.data.map Char.toLower⟩

/-- Executable prefix test on character lists. -/
def prefixOfCh : List Char → List Char → Bool
  | [], _ => true
  | _ :: _, [] => false
  | a :: as, b :: bs => a == b && prefixOfCh as bs

/-- Executable contiguous-substring test on character lists. -/
def infixOfCh (needle : List Char) : List Char → Bool
  | [] => prefixOfCh needle []
  | c :: rest => prefixOfCh needle (c :: rest) || infixOfCh needle rest

/-- Python's `needle in hay` substring test. -/
def containsSubstr (hay needle : String) : Bool := infixOfCh needle.data hay.data

/-- Python's no-argument `s.split()`: maximal runs of non-whitespace characters. -/
def pyWords (s : String) : List (List Char) :=
  (s.data.splitOnP Char.isWhitespace).filter (fun w => !w.isEmpty)

/-- `len(s.split())`, the word count used by the critic and the learner. -/
def pyWordCount (s : String) : Nat := (pyWords s).length

/-- Python's `s.strip()`. -/
def pyStrip (s : String) : String :=
  ⟨((s.data.dropWhile Char.isWhitespace).reverse.dropWhile Char.isWhitespace).reverse⟩

/-- A value held by a hotel-data dict: CSV rows carry strings and numbers;
the normalizer additionally stores one nested dict under `"scores"`.
Numeric CSV cells are modelled as integers. -/
inductive Val where
  | str (s : String)
  | num (n : Int)
  | vdict (d : List (String × Val))
deriving Repr, BEq

/-- Python `str(v)` / f-string rendering of a dict value.  The pipeline only
ever renders strings and numbers (raw CSV rows are flat), so the nested-dict
case is left as the empty rendering. -/
def Val.render : Val → String
  | .str s => s
  | .num n => toString n
  | .vdict _ => ""

/-- A Python dict with string keys, as an association list. -/
abbrev Dict := List (String × Val)

/-- `d.get(k, dflt)` of Python. -/
def dget (d : Dict) (k : String) (dflt : Val) : Val := (d.lookup k).getD dflt

/-- `critique_results` built by `self_critique_node` (pipeline.py:154-203). -/
structure Critique where
  word_count_valid : Bool
  location_mentioned : Bool
  star_rating_mentioned : Bool
  amenities_count : Nat
  no_superlatives : Bool
  issues : List String
deriving Repr, DecidableEq

/-- The fixed amenity keyword list of `self_critique_node` (pipeline.py:189). -/
def score_keywords : List String :=
  ["cleanli", "comfort", "facilit", "staff", "value", "location score"]

/-- The fixed banned-superlative list of `self_critique_node` (pipeline.py:196). -/
def superlatives : List String :=
  ["amazing", "incredible", "stunning", "breathtaking", "perfect", "ultimate"]

/-- The pure core of `self_critique_node` (pipeline.py:154-203): `draft` is the
draft summary, `city`/`country` the normalized hotel's fields (the source calls
`.lower()` on them, so they are strings), `sr` the normalized star-rating value
(the source renders it with `str(...)`). -/
def self_critique (draft city country : String) (sr : Val) : Critique :=
  let word_count := pyWordCount draft
  let wcv : Bool := 60 ≤ word_count && word_count ≤ 100
  let draft_lower := lowerStr draft
  let loc : Bool :=
    containsSubstr draft_lower (lowerStr city) || containsSubstr draft_lower (lowerStr country)
  let star_rating := sr.render
  let starm : Bool := containsSubstr draft star_rating || containsSubstr draft_lower "star"
  let amenities_mentioned := score_keywords.countP (fun kw => containsSubstr draft_lower kw)
  let found_superlatives := superlatives.filter (fun s => containsSubstr draft_lower s)
  { word_count_valid := wcv
    location_mentioned := loc
    star_rating_mentioned := starm
    amenities_count := amenities_mentioned
    no_superlatives := found_superlatives.isEmpty
    issues :=
      (if wcv then [] else [s!"Word count {word_count} (expected 60-100)"]) ++
      (if loc then [] else ["Location not clearly mentioned"]) ++
      (if starm then [] else ["Star rating not mentioned"]) ++
      (if amenities_mentioned < 2 then
        [s!"Only {amenities_mentioned} amenities mentioned (expected 2-4)"] else []) ++
      (if found_superlatives.isEmpty then [] else
        let joined := String.intercalate ", " found_superlatives
        [s!"Contains superlatives: {joined}"]) }

/-- Claim C3: the critique's `issues` list is non-empty exactly when at least
one of the five checks fails (`word_count_valid` false, `location_mentioned`
false, `star_rating_mentioned` false, `amenities_count < 2`, or
`no_superlatives` false). -/
theorem critique_issues_nonempty_iff (draft city country : String) (sr : Val) :
    (self_critique draft city country sr).issues ≠ [] ↔
      ((self_critique draft city country sr).word_count_valid = false ∨
       (self_critique draft city country sr).location_mentioned = false ∨
       (self_critique draft city country sr).star_rating_mentioned = false ∨
       (self_critique draft city country sr).amenities_count < 2 ∨
       (self_critique draft city country sr).no_superlatives = false) := by
  unfold self_critique
  simp only []
  split_ifs <;> (simp_all; try aesop)

/-- A few-shot example record, `{"summary": s}` as app.py:115-117 builds and
pipeline.py:131-132 consumes. -/
structure Example where
  summary : String
deriving Repr, DecidableEq

/-- The three review decisions. -/
inductive Action where
  | accept
  | reject
  | edit
deriving Repr, DecidableEq

/-- `HotelState` (pipeline.py:16-26).  `Optional` fields are `Option`; the
conditioning context is carried as in `run_until_human` after its
`or []` defaulting. -/
structure HotelState where
  hotel_id : Int
  hotel_data : Dict
  draft_summary : Option String
  critique_results : Option Critique
  final_summary : Option String
  human_action : Option Action
  review_timestamp : Option String
  style_guide : String
  few_shot_examples : List Example
  error_patterns : List String
deriving Repr

/-- `ingest_node` (pipeline.py:68-91): replaces `hotel_data` with the
normalized dict; every `.get` default is reproduced. -/
def ingest_node (state : HotelState) : HotelState :=
  let hotel_data := state.hotel_data
  let normalized : Dict :=
    [("name", dget hotel_data "hotel_name" (.str "Unknown")),
     ("city", dget hotel_data "city" (.str "Unknown")),
     ("country", dget hotel_data "country" (.str "Unknown")),
     ("star_rating", dget hotel_data "star_rating" (.num 0)),
     ("location", .str ((dget hotel_data "city" (.str "Unknown")).render ++ ", " ++
        (dget hotel_data "country" (.str "Unknown")).render)),
     ("coordinates", .str ((dget hotel_data "lat" (.num 0)).render ++ ", " ++
        (dget hotel_data "lon" (.num 0)).render)),
     ("scores", .vdict
       [("cleanliness", dget hotel_data "cleanliness_base" (.num 0)),
        ("comfort", dget hotel_data "comfort_base" (.num 0)),
        ("facilities", dget hotel_data "facilities_base" (.num 0)),
        ("location", dget hotel_data "location_base" (.num 0)),
        ("staff", dget hotel_data "staff_base" (.num 0)),
        ("value", dget hotel_data "value_for_money_base" (.num 0))])]
  { state with hotel_data := normalized }

/-- `draft_generation_node` (pipeline.py:93-152).  The prompt is sent to an
external model; its reply is the oracle `resp`, and the node stores
`resp.strip()`.  The node indexes `hotel["name"]`, `hotel["location"]`,
`hotel["star_rating"]` and four entries of `hotel["scores"]` while building
the prompt, so a state missing one of them raises (`none`). -/
def draft_generation_node (resp : String) (state : HotelState) : Option HotelState :=
  match state.hotel_data.lookup "name", state.hotel_data.lookup "location",
        state.hotel_data.lookup "star_rating", state.hotel_data.lookup "scores" with
  | some _, some _, some _, some (.vdict scores) =>
    match scores.lookup "cleanliness", scores.lookup "comfort",
          scores.lookup "facilities", scores.lookup "location" with
    | some _, some _, some _, some _ =>
      some { state with draft_summary := some (pyStrip resp) }
    | _, _, _, _ => none
  | _, _, _, _ => none

/-- `self_critique_node` (pipeline.py:154-203) as a state transformer: it
reads the draft (raising on `None`) and the normalized `city`, `country`
(strings, since the source lowercases them) and `star_rating`. -/
def self_critique_node (state : HotelState) : Option HotelState :=
  match state.draft_summary, state.hotel_data.lookup "city",
        state.hotel_data.lookup "country", state.hotel_data.lookup "star_rating" with
  | some draft, some (.str city), some (.str country), some sr =>
    some { state with critique_results := some (self_critique draft city country sr) }
  | _, _, _, _ => none

/-- `human_review_node` (pipeline.py:205-210): a marker; returns the state
unchanged. -/
def human_review_node (state : HotelState) : HotelState := state

/-- `store_node` (pipeline.py:212-215); the wall clock is the explicit
argument `now`. -/
def store_node (now : String) (state : HotelState) : HotelState :=
  { state with review_timestamp := some now }

/-- `should_store` (pipeline.py:217-222): `true` stands for the `"store"`
edge, `false` for `"end"`. -/
def should_store (state : HotelState) : Bool :=
  match state.human_action with
  | some .accept => true
  | some .edit => true
  | _ => false

/-- `run_until_human` (pipeline.py:224-248): builds the initial state and runs
ingest, draft and critique.  `resp` is the draft generation call's reply. -/
def run_until_human (resp : String) (hotel_id : Int) (hotel_data : Dict)
    (style_guide : String) (few_shot_examples : List Example)
    (error_patterns : List String) : Option HotelState :=
  let initial_state : HotelState :=
    { hotel_id := hotel_id
      hotel_data := hotel_data
      draft_summary := none
      critique_results := none
      final_summary := none
      human_action := none
      review_timestamp := none
      style_guide := style_guide
      few_shot_examples := few_shot_examples
      error_patterns := error_patterns }
  (draft_generation_node resp (ingest_node initial_state)).bind self_critique_node

/-- Python truthiness of `edited_summary` in `complete_review`'s
`action == "edit" and edited_summary`: `None` and `""` are falsy. -/
def truthy : Option String → Bool
  | none => false
  | some s => !s.data.isEmpty

/-- `complete_review` (pipeline.py:250-267). -/
def complete_review (now : String) (state : HotelState) (action : Action)
    (edited_summary : Option String) : HotelState :=
  let s := { state with human_action := some action }
  let s :=
    if action = .edit ∧ truthy edited_summary then
      { s with final_summary := edited_summary }
    else if action = .accept then
      { s with final_summary := s.draft_summary }
    else
      { s with final_summary := none }
  if action = .accept ∨ action = .edit then store_node now s else s

/-- A state sitting at the human gate: draft present, decision fields absent. -/
def sampleGateState : HotelState :=
  { hotel_id := 1
    hotel_data := []
    draft_summary := some "X"
    critique_results := none
    final_summary := none
    human_action := none
    review_timestamp := none
    style_guide := ""
    few_shot_examples := []
    error_patterns := [] }

/-- Claim C1: at the human gate with `draft_summary = X`, `accept` yields
`final_summary = X` and the store step runs (timestamp stamped, `should_store`
routes to store); `reject` yields `final_summary` absent with no store
(`review_timestamp` stays absent, `should_store` routes to end); `edit` with
non-empty text `Y` yields `final_summary = Y` and the store step runs. -/
theorem review_gate_transitions (st : HotelState) (X now : String)
    (hd : st.draft_summary = some X) (hts : st.review_timestamp = none) :
    (∀ e, (complete_review now st .accept e).final_summary = some X ∧
          (complete_review now st .accept e).review_timestamp = some now ∧
          should_store (complete_review now st .accept e) = true) ∧
    (∀ e, (complete_review now st .reject e).final_summary = none ∧
          (complete_review now st .reject e).review_timestamp = none ∧
          should_store (complete_review now st .reject e) = false) ∧
    (∀ Y, Y ≠ "" → (complete_review now st .edit (some Y)).final_summary = some Y ∧
          (complete_review now st .edit (some Y)).review_timestamp = some now ∧
          should_store (complete_review now st .edit (some Y)) = true) := by
  refine ⟨fun e => ?_, fun e => ?_, fun Y hY => ?_⟩
  · simp [complete_review, store_node, should_store, truthy, hd]
  · simp [complete_review, store_node, should_store, truthy, hts]
  · have hY' : Y.data ≠ [] := fun hh => hY (String.ext hh)
    simp [complete_review, store_node, should_store, truthy, hY']

/-- Witness for C1 at a concrete state and clock. -/
theorem review_gate_transitions_witness :
    (complete_review "2025-01-01T00:00:00" sampleGateState .accept none).final_summary
      = some "X" ∧
    (complete_review "2025-01-01T00:00:00" sampleGateState .reject none).review_timestamp
      = none ∧
    (complete_review "2025-01-01T00:00:00" sampleGateState .edit (some "Y")).final_summary
      = some "Y" :=
  ⟨((review_gate_transitions sampleGateState "X" "2025-01-01T00:00:00" rfl rfl).1 none).1,
   ((review_gate_transitions sampleGateState "X" "2025-01-01T00:00:00" rfl rfl).2.1 none).2.1,
   ((review_gate_transitions sampleGateState "X" "2025-01-01T00:00:00" rfl rfl).2.2 "Y"
      (by decide)).1⟩

/-- Claim C2, what the code actually does at the failing input: `edit` with an
absent (or empty) replacement text raises no error; it silently falls into the
reject branch (`final_summary := None`) and then still runs the store step,
stamping the timestamp — the record is stored as a completed `edit` review
with no final text. -/
theorem edit_without_text_silently_stores :
    (complete_review "2025-01-01T00:00:00" sampleGateState .edit none).final_summary
      = none ∧
    (complete_review "2025-01-01T00:00:00" sampleGateState .edit none).review_timestamp
      = some "2025-01-01T00:00:00" ∧
    should_store (complete_review "2025-01-01T00:00:00" sampleGateState .edit none) = true ∧
    (complete_review "2025-01-01T00:00:00" sampleGateState .edit (some "")).final_summary
      = none ∧
    (complete_review "2025-01-01T00:00:00" sampleGateState .edit (some "")).review_timestamp
      = some "2025-01-01T00:00:00" := by
  refine ⟨?_, ?_, ?_, ?_, ?_⟩ <;> decide

/-- Claim C9, counterexample: two runs of `complete_review` on the same
(state, action, text) input but at different wall-clock instants produce
different `ReviewState`s — `review_timestamp` records the clock, so the
transition is not deterministic in the claimed inputs alone. -/
theorem complete_review_clock_sensitive :
    complete_review "2025-01-01T00:00:00" sampleGateState .accept none ≠
      complete_review "2025-01-01T00:00:01" sampleGateState .accept none := by
  intro h
  have h' := congrArg HotelState.review_timestamp h
  simp [complete_review, store_node] at h'

/-- Claim C9, amended: `complete_review` is deterministic given the clock —
every field except `review_timestamp` depends only on (state, action, text),
and runs with equal clock readings agree on every field. -/
theorem complete_review_deterministic_modulo_clock (st : HotelState) (a : Action)
    (e : Option String) (now now' : String) :
    (complete_review now st a e).hotel_id = (complete_review now' st a e).hotel_id ∧
    (complete_review now st a e).hotel_data = (complete_review now' st a e).hotel_data ∧
    (complete_review now st a e).draft_summary = (complete_review now' st a e).draft_summary ∧
    (complete_review now st a e).critique_results
      = (complete_review now' st a e).critique_results ∧
    (complete_review now st a e).final_summary = (complete_review now' st a e).final_summary ∧
    (complete_review now st a e).human_action = (complete_review now' st a e).human_action ∧
    (complete_review now st a e).style_guide = (complete_review now' st a e).style_guide ∧
    (complete_review now st a e).few_shot_examples
      = (complete_review now' st a e).few_shot_examples ∧
    (complete_review now st a e).error_patterns = (complete_review now' st a e).error_patterns ∧
    (now = now' →
      complete_review now st a e = complete_review now' st a e) := by
  unfold complete_review store_node
  split_ifs <;> simp_all

/-- The ingest stage only rewrites `hotel_data`. -/
theorem ingest_frame (st : HotelState) :
    (ingest_node st).human_action = st.human_action ∧
    (ingest_node st).final_summary = st.final_summary ∧
    (ingest_node st).review_timestamp = st.review_timestamp :=
  ⟨rfl, rfl, rfl⟩

/-- The draft stage only writes `draft_summary`. -/
theorem draft_node_frame (resp : String) (st st' : HotelState)
    (h : draft_generation_node resp st = some st') :
    st'.human_action = st.human_action ∧
    st'.final_summary = st.final_summary ∧
    st'.review_timestamp = st.review_timestamp := by
  unfold draft_generation_node at h
  repeat' split at h
  all_goals simp_all
  all_goals exact ⟨h.symm ▸ rfl, h.symm ▸ rfl, h.symm ▸ rfl⟩

/-- The critique stage only writes `critique_results`. -/
theorem critique_node_frame (st st' : HotelState)
    (h : self_critique_node st = some st') :
    st'.human_action = st.human_action ∧
    st'.final_summary = st.final_summary ∧
    st'.review_timestamp = st.review_timestamp := by
  unfold self_critique_node at h
  repeat' split at h
  all_goals simp_all
  all_goals exact ⟨h.symm ▸ rfl, h.symm ▸ rfl, h.symm ▸ rfl⟩

/-- Claim C10: whatever state `run_until_human` returns still has
`human_action`, `final_summary` and `review_timestamp` absent — none of the
automated stages before the human gate writes a decision field. -/
theorem run_until_human_decision_fields_absent (resp : String) (hid : Int)
    (hd : Dict) (sg : String) (fse : List Example) (ep : List String)
    (s : HotelState) (h : run_until_human resp hid hd sg fse ep = some s) :
    s.human_action = none ∧ s.final_summary = none ∧ s.review_timestamp = none := by
  unfold run_until_human at h
  rw [Option.bind_eq_some] at h
  obtain ⟨mid, hmid, hcrit⟩ := h
  have h1 := draft_node_frame resp _ mid hmid
  have h2 := critique_node_frame mid s hcrit
  refine ⟨?_, ?_, ?_⟩ <;> simp [h2.1, h2.2.1, h2.2.2, h1.1, h1.2.1, h1.2.2, ingest_node]

/-- A raw CSV-style hotel record used by concrete witnesses. -/
def sampleRaw : Dict :=
  [("hotel_name", .str "Bay Inn"), ("city", .str "Austin"), ("country", .str "USA"),
   ("star_rating", .num 4), ("cleanliness_base", .num 8)]

/-- Witness for C10 at a concrete raw record and draft reply. -/
theorem run_until_human_decision_fields_absent_witness :
    ∃ s, run_until_human "A quiet stay." 1 sampleRaw "" [] [] = some s ∧
      s.human_action = none ∧ s.final_summary = none ∧ s.review_timestamp = none :=
  ⟨_, rfl, run_until_human_decision_fields_absent "A quiet stay." 1 sampleRaw "" [] [] _ rfl⟩

/-- Python's `"sep".join(l)`. -/
def joinSep (sep : String) : List String → String
  | [] => ""
  | a :: as => as.foldl (fun acc x => acc ++ sep ++ x) a

theorem str_append_assoc (a b c : String) : a ++ b ++ c = a ++ (b ++ c) :=
  String.ext (by simp)

theorem prefixOfCh_iff (n h : List Char) : prefixOfCh n h = true ↔ n <+: h := by
  induction n generalizing h with
  | nil => simp [prefixOfCh]
  | cons a as ih =>
    cases h with
    | nil => simp [prefixOfCh]
    | cons b bs => simp [prefixOfCh, ih, List.cons_prefix_cons]

theorem infixOfCh_iff (n h : List Char) : infixOfCh n h = true ↔ n <:+: h := by
  induction h with
  | nil => simp [infixOfCh, prefixOfCh_iff, List.prefix_nil, List.infix_nil]
  | cons c rest ih => simp [infixOfCh, prefixOfCh_iff, ih, List.infix_cons_iff]

theorem containsSubstr_append_left (a b n : String)
    (h : containsSubstr a n = true) : containsSubstr (a ++ b) n = true := by
  simp only [containsSubstr, infixOfCh_iff, String.data_append] at h ⊢
  obtain ⟨s, t, hst⟩ := h
  exact ⟨s, t ++ b.data, by rw [← hst]; simp⟩

/-- The first learned note appended when any edits exist (pipeline.py:280). -/
def note_concise : String := "- Users prefer concise, direct language"

/-- The second learned note appended when any edits exist (pipeline.py:281). -/
def note_factual : String := "- Emphasize factual scores over descriptions"

/-- `int(sum(len(s.split()) for s in accepted) / len(accepted))`
(pipeline.py:275): the integer average of the whitespace word counts. -/
def avg_word_length (accepted : List String) : Nat :=
  (accepted.map pyWordCount).sum / accepted.length

/-- The preferred-length line (pipeline.py:276). -/
def pref_length_line (accepted : List String) : String :=
  s!"- Preferred length: ~{avg_word_length accepted} words"

/-- `extract_style_patterns` (pipeline.py:270-283). -/
def extract_style_patterns (accepted_summaries : List String)
    (edited_pairs : List (String × String)) : String :=
  let patterns : List String :=
    if 3 ≤ accepted_summaries.length then [pref_length_line accepted_summaries] else []
  let patterns :=
    if edited_pairs.isEmpty then patterns else patterns ++ [note_concise, note_factual]
  if patterns.isEmpty then "" else joinSep "\n" patterns

/-- Closed form of `extract_style_patterns` over its four cases. -/
theorem extract_style_patterns_cases (acc : List String) (ed : List (String × String)) :
    extract_style_patterns acc ed =
      if 3 ≤ acc.length then
        (if ed.isEmpty then pref_length_line acc
         else pref_length_line acc ++ ("\n" ++ (note_concise ++ ("\n" ++ note_factual))))
      else (if ed.isEmpty then "" else note_concise ++ ("\n" ++ note_factual)) := by
  unfold extract_style_patterns
  split_ifs <;> simp [joinSep, str_append_assoc]

/-- Claim C6: when the style guide is recomputed, (a) with at least 3 accepted
texts it opens with the preferred-length line built from the integer average
of their word counts, (b) with fewer than 3 that line is absent, (c) with any
edited pairs the two fixed qualitative notes are appended at the end, and
(d) with no accepted and no edited texts the guide is the empty text. -/
theorem style_guide_contents (acc : List String) (ed : List (String × String)) :
    (3 ≤ acc.length →
      ∃ rest, extract_style_patterns acc ed = pref_length_line acc ++ rest) ∧
    (acc.length < 3 →
      containsSubstr (extract_style_patterns acc ed) "Preferred length" = false) ∧
    (ed ≠ [] →
      ∃ pre, extract_style_patterns acc ed
        = pre ++ (note_concise ++ ("\n" ++ note_factual))) ∧
    (acc = [] → ed = [] → extract_style_patterns acc ed = "") := by
  rw [extract_style_patterns_cases]
  refine ⟨fun h3 => ?_, fun hlt => ?_, fun hed => ?_, fun ha he => ?_⟩
  · rw [if_pos h3]
    by_cases he : ed.isEmpty
    · exact ⟨"", by simp [he]⟩
    · exact ⟨"\n" ++ (note_concise ++ ("\n" ++ note_factual)), by simp [he]⟩
  · rw [if_neg (by omega)]
    by_cases he : ed.isEmpty
    · simp [he]; decide
    · simp [he]; decide
  · have he : ed.isEmpty = false := by
      cases ed with
      | nil => exact absurd rfl hed
      | cons a as => rfl
    by_cases h3 : 3 ≤ acc.length
    · exact ⟨pref_length_line acc ++ "\n",
        by simp [h3, he, str_append_assoc]⟩
    · exact ⟨"", by simp [h3, he]⟩
  · subst ha he
    simp

set_option maxRecDepth 8000 in
/-- Witness for C6: three accepted texts of 70, 80 and 90 words produce the
preferred-length note of 80 words, and one edited pair appends the two fixed
notes. -/
theorem style_guide_contents_witness :
    (∃ rest, extract_style_patterns
        [joinSep " " (List.replicate 70 "w"), joinSep " " (List.replicate 80 "w"),
         joinSep " " (List.replicate 90 "w")] [("d", "f")]
      = pref_length_line
          [joinSep " " (List.replicate 70 "w"), joinSep " " (List.replicate 80 "w"),
           joinSep " " (List.replicate 90 "w")] ++ rest) ∧
    pref_length_line
        [joinSep " " (List.replicate 70 "w"), joinSep " " (List.replicate 80 "w"),
         joinSep " " (List.replicate 90 "w")]
      = "- Preferred length: ~80 words" ∧
    (∃ pre, extract_style_patterns [] [("d", "f")]
      = pre ++ (note_concise ++ ("\n" ++ note_factual))) ∧
    extract_style_patterns [] [] = "" :=
  ⟨(style_guide_contents _ _).1 (by decide),
   by decide,
   (style_guide_contents [] [("d", "f")]).2.2.1 (by decide),
   (style_guide_contents [] []).2.2.2 rfl rfl⟩

/-- One feedback record of `FeedbackLearner.add_feedback`
(learning_system.py:22-30); `action` is an unvalidated string. -/
structure FeedbackRecord where
  hotel_id : String
  action : String
  original_draft : String
  final_text : String
deriving Repr, DecidableEq

/-- The header inserted before generated additions (learning_system.py:87). -/
def improvements_header : String := "\n\nFEEDBACK-BASED IMPROVEMENTS:\n"

/-- `FeedbackLearner.analyze_feedback_patterns` (learning_system.py:32-63).
`r1` is the outcome of the Gemini call: its reply text, or the raised
exception's message, which the `except` arm folds into
`"Pattern analysis failed: {e}"`. -/
def analyze_feedback_patterns (history : List FeedbackRecord)
    (r1 : Except String String) : String :=
  let edits := history.filter (fun f => f.action == "edit")
  if edits.isEmpty then "No edit patterns detected yet."
  else
    match r1 with
    | .ok content => content
    | .error e => s!"Pattern analysis failed: {e}"

/-- `FeedbackLearner.get_improved_style_guide` (learning_system.py:65-90);
`r1`, `r2` are the outcomes of its two Gemini calls. -/
def get_improved_style_guide (history : List FeedbackRecord)
    (base_style_guide : String) (r1 r2 : Except String String) : String :=
  let patterns := analyze_feedback_patterns history r1
  if containsSubstr patterns "No edit patterns" || containsSubstr patterns "failed" then
    base_style_guide
  else
    match r2 with
    | .ok content => base_style_guide ++ improvements_header ++ content
    | .error _ => base_style_guide

theorem failed_in_failure_message (e : String) :
    containsSubstr (s!"Pattern analysis failed: {e}") "failed" = true :=
  containsSubstr_append_left _ "" _
    (containsSubstr_append_left "Pattern analysis failed: " e "failed" (by decide))

theorem no_edit_msg_hit :
    (containsSubstr "No edit patterns detected yet." "No edit patterns" ||
      containsSubstr "No edit patterns detected yet." "failed") = true := by decide

/-- Claim C7: the narrative-enrichment path never raises — if the first or the
second generation call fails, the base style guide is returned unchanged, and
a result other than the base guide only arises when both calls succeeded, in
which case it is the base guide with the generated additions appended. -/
theorem improved_style_guide_degrades_gracefully (history : List FeedbackRecord)
    (base : String) (r1 r2 : Except String String) :
    (∀ e, r1 = .error e → get_improved_style_guide history base r1 r2 = base) ∧
    (∀ e, r2 = .error e → get_improved_style_guide history base r1 r2 = base) ∧
    (get_improved_style_guide history base r1 r2 ≠ base →
      ∃ c1 c2, r1 = .ok c1 ∧ r2 = .ok c2 ∧
        get_improved_style_guide history base r1 r2
          = base ++ improvements_header ++ c2) := by
  refine ⟨fun e he1 => ?_, fun e he2 => ?_, fun hne => ?_⟩
  · subst he1
    unfold get_improved_style_guide analyze_feedback_patterns
    by_cases hed : (history.filter (fun f => f.action == "edit")).isEmpty
    · simp [hed, no_edit_msg_hit]
    · simp [hed, failed_in_failure_message]
  · subst he2
    unfold get_improved_style_guide analyze_feedback_patterns
    by_cases hed : (history.filter (fun f => f.action == "edit")).isEmpty
    · simp [hed, no_edit_msg_hit]
    · rcases r1 with e1 | c1
      · simp [hed, failed_in_failure_message]
      · simp [hed]
  · unfold get_improved_style_guide analyze_feedback_patterns at hne ⊢
    by_cases hed : (history.filter (fun f => f.action == "edit")).isEmpty
    · exact absurd (by simp [hed, no_edit_msg_hit]) hne
    · rcases r1 with e1 | c1
      · exact absurd (by simp [hed, failed_in_failure_message]) hne
      · rcases r2 with e2 | c2
        · exact absurd (by simp [hed]) hne
        · by_cases hcond : (containsSubstr c1 "No edit patterns"
              || containsSubstr c1 "failed") = true
          · exact absurd (by simp [hed, hcond]) hne
          · exact ⟨c1, c2, rfl, rfl, by simp [hed, hcond]⟩

/-- Witness for C7 at concrete call outcomes: a failing first call and a
failing second call each fall back to the base guide. -/
theorem improved_style_guide_degrades_gracefully_witness :
    get_improved_style_guide [⟨"1", "edit", "d", "f"⟩] "BASE"
      (Except.error "boom") (Except.ok "extra") = "BASE" ∧
    get_improved_style_guide [⟨"1", "edit", "d", "f"⟩] "BASE"
      (Except.ok "patterns found") (Except.error "boom") = "BASE" :=
  ⟨(improved_style_guide_degrades_gracefully [⟨"1", "edit", "d", "f"⟩] "BASE"
      (Except.error "boom") (Except.ok "extra")).1 "boom" rfl,
   (improved_style_guide_degrades_gracefully [⟨"1", "edit", "d", "f"⟩] "BASE"
      (Except.ok "patterns found") (Except.error "boom")).2.1 "boom" rfl⟩

/-- One row of `reviewed_data` as `save_review` (app.py:78-97) stores it.
Only `status`, `draft_summary` and `final_summary` feed the learner; the
learner reads a row's final text only for accept- and edit-labelled rows, so
the texts are carried as plain strings. -/
structure ReviewRow where
  hotel_id : Int
  status : Action
  draft_summary : String
  final_summary : String
deriving Repr, DecidableEq

/-- `LEARNING_THRESHOLD` (app.py:29). -/
def LEARNING_THRESHOLD : Nat := 5

/-- The learned conditioning context held in Streamlit session state
(`style_guide`, `few_shot_examples`, `error_patterns`; app.py:57-64). -/
structure LearnedCtx where
  style_guide : String
  few_shot_examples : List Example
  error_patterns : List String
deriving Repr, DecidableEq

/-- Session-state initial values (app.py:57-64). -/
def initialCtx : LearnedCtx :=
  { style_guide := "", few_shot_examples := [], error_patterns := [] }

/-- `accepted` (app.py:106): final texts of accept-labelled rows, in order. -/
def acceptedTexts (reviews : List ReviewRow) : List String :=
  (reviews.filter (fun r => r.status == Action.accept)).map (fun r => r.final_summary)

/-- `edited_pairs` (app.py:107-108). -/
def editedPairs (reviews : List ReviewRow) : List (String × String) :=
  (reviews.filter (fun r => r.status == Action.edit)).map
    (fun r => (r.draft_summary, r.final_summary))

/-- `rejected` (app.py:120). -/
def rejectedRows (reviews : List ReviewRow) : List ReviewRow :=
  reviews.filter (fun r => r.status == Action.reject)

/-- Python's `l[-n:]`. -/
def lastN (n : Nat) (l : List α) : List α := l.drop (l.length - n)

/-- The fixed rejection-pattern strings (app.py:122-125). -/
def error_pattern_notes : List String :=
  ["Users rejected summaries with poor structure", "Focus on concrete data points"]

/-- `update_learning_models` (app.py:100-127) with the threshold as a
parameter (the source fixes it to `LEARNING_THRESHOLD`): when the review
count is a non-zero multiple of the threshold it rewrites the style guide,
rewrites the few-shot examples when any accepted text exists, and rewrites
the error patterns when any rejected row exists; otherwise the context is
untouched. -/
def update_learning_models (threshold : Nat) (reviews : List ReviewRow)
    (ctx : LearnedCtx) : LearnedCtx :=
  if reviews.length % threshold = 0 ∧ 0 < reviews.length then
    let accepted := acceptedTexts reviews
    let edited_pairs := editedPairs reviews
    let ctx1 := { ctx with style_guide := extract_style_patterns accepted edited_pairs }
    let ctx2 :=
      if accepted.isEmpty then ctx1
      else { ctx1 with few_shot_examples := (lastN 3 accepted).map (fun s => ⟨s⟩) }
    if (rejectedRows reviews).isEmpty then ctx2
    else { ctx2 with error_patterns := error_pattern_notes }
  else ctx

/-- The session context after `save_review` has appended each row of the
remaining list in turn (`done` rows already saved): `update_learning_models`
runs after every append on the whole list saved so far. -/
def ctxAfterAux (threshold : Nat) (done : List ReviewRow) (ctx : LearnedCtx) :
    List ReviewRow → LearnedCtx
  | [] => ctx
  | r :: rest =>
    ctxAfterAux threshold (done ++ [r])
      (update_learning_models threshold (done ++ [r]) ctx) rest

/-- The session context after the whole `history` has been reviewed in order,
starting from the empty session state. -/
def ctxAfter (threshold : Nat) (history : List ReviewRow) : LearnedCtx :=
  ctxAfterAux threshold [] initialCtx history

/-- The context recomputed wholesale from an entire review history. -/
def recompute_from_history (reviews : List ReviewRow) : LearnedCtx :=
  { style_guide := extract_style_patterns (acceptedTexts reviews) (editedPairs reviews)
    few_shot_examples := (lastN 3 (acceptedTexts reviews)).map (fun s => ⟨s⟩)
    error_patterns := if (rejectedRows reviews).isEmpty then [] else error_pattern_notes }

theorem ctxAfterAux_concat (threshold : Nat) (rest : List ReviewRow) :
    ∀ (done : List ReviewRow) (ctx : LearnedCtx) (r : ReviewRow),
      ctxAfterAux threshold done ctx (rest ++ [r]) =
        update_learning_models threshold (done ++ rest ++ [r])
          (ctxAfterAux threshold done ctx rest) := by
  induction rest with
  | nil => intro done ctx r; simp [ctxAfterAux]
  | cons a as ih =>
    intro done ctx r
    show ctxAfterAux threshold (done ++ [a])
        (update_learning_models threshold (done ++ [a]) ctx) (as ++ [r]) =
      update_learning_models threshold (done ++ (a :: as) ++ [r])
        (ctxAfterAux threshold (done ++ [a])
          (update_learning_models threshold (done ++ [a]) ctx) as)
    rw [ih]
    simp [List.append_assoc]

theorem ctxAfter_concat (threshold : Nat) (history : List ReviewRow) (r : ReviewRow) :
    ctxAfter threshold (history ++ [r]) =
      update_learning_models threshold (history ++ [r]) (ctxAfter threshold history) := by
  unfold ctxAfter
  rw [ctxAfterAux_concat]
  simp

theorem acceptedTexts_concat (rows : List ReviewRow) (r : ReviewRow) :
    acceptedTexts (rows ++ [r]) =
      acceptedTexts rows ++
        (if r.status = Action.accept then [r.final_summary] else []) := by
  simp only [acceptedTexts, List.filter_append, List.map_append]
  congr 1
  by_cases h : r.status = Action.accept
  · simp [List.filter, h]
  · have hb : (r.status == Action.accept) = false := beq_eq_false_iff_ne.mpr h
    simp [List.filter, hb, h]

theorem rejectedRows_concat (rows : List ReviewRow) (r : ReviewRow) :
    rejectedRows (rows ++ [r]) =
      rejectedRows rows ++ (if r.status = Action.reject then [r] else []) := by
  simp only [rejectedRows, List.filter_append]
  congr 1
  by_cases h : r.status = Action.reject
  · simp [List.filter, h]
  · have hb : (r.status == Action.reject) = false := beq_eq_false_iff_ne.mpr h
    simp [List.filter, hb, h]

theorem few_shot_nil_of_accepts_nil (threshold : Nat) :
    ∀ history : List ReviewRow, acceptedTexts history = [] →
      (ctxAfter threshold history).few_shot_examples = [] := by
  intro history
  induction history using List.reverseRecOn with
  | nil => intro _; rfl
  | append_singleton l r ih =>
    intro h
    have h2 := acceptedTexts_concat l r
    rw [h] at h2
    obtain ⟨hl, -⟩ := List.append_eq_nil.mp h2.symm
    rw [ctxAfter_concat]
    unfold update_learning_models
    split
    · simp only [h, List.isEmpty_nil, if_true]
      split <;> simp [ih hl]
    · exact ih hl

theorem error_patterns_nil_of_rejects_nil (threshold : Nat) :
    ∀ history : List ReviewRow, rejectedRows history = [] →
      (ctxAfter threshold history).error_patterns = [] := by
  intro history
  induction history using List.reverseRecOn with
  | nil => intro _; rfl
  | append_singleton l r ih =>
    intro h
    have h2 := rejectedRows_concat l r
    rw [h] at h2
    obtain ⟨hl, -⟩ := List.append_eq_nil.mp h2.symm
    rw [ctxAfter_concat]
    unfold update_learning_models
    split
    · simp only [h, List.isEmpty_nil, if_true]
      split <;> simp [ih hl]
    · exact ih hl

theorem ctxAfter_fired (threshold : Nat) (history : List ReviewRow)
    (hm : history.length % threshold = 0 ∧ 0 < history.length) :
    ctxAfter threshold history = recompute_from_history history := by
  rcases List.eq_nil_or_concat history with rfl | ⟨l, r, rfl⟩
  · exact absurd hm.2 (by simp)
  · rw [List.concat_eq_append] at hm ⊢
    rw [ctxAfter_concat]
    unfold update_learning_models
    rw [if_pos hm]
    by_cases hacc : (acceptedTexts (l ++ [r])).isEmpty
    · have haccl : acceptedTexts l = [] := by
        have h2 := acceptedTexts_concat l r
        rw [List.isEmpty_iff.mp hacc] at h2
        exact (List.append_eq_nil.mp h2.symm).1
      by_cases hrej : (rejectedRows (l ++ [r])).isEmpty
      · have hrejl : rejectedRows l = [] := by
          have h2 := rejectedRows_concat l r
          rw [List.isEmpty_iff.mp hrej] at h2
          exact (List.append_eq_nil.mp h2.symm).1
        simp [hacc, hrej, recompute_from_history, lastN,
          few_shot_nil_of_accepts_nil threshold l haccl,
          error_patterns_nil_of_rejects_nil threshold l hrejl,
          List.isEmpty_iff.mp hacc]
      · simp [hacc, hrej, recompute_from_history, lastN,
          few_shot_nil_of_accepts_nil threshold l haccl,
          List.isEmpty_iff.mp hacc]
    · by_cases hrej : (rejectedRows (l ++ [r])).isEmpty
      · have hrejl : rejectedRows l = [] := by
          have h2 := rejectedRows_concat l r
          rw [List.isEmpty_iff.mp hrej] at h2
          exact (List.append_eq_nil.mp h2.symm).1
        simp [hacc, hrej, recompute_from_history,
          error_patterns_nil_of_rejects_nil threshold l hrejl]
      · simp [hacc, hrej, recompute_from_history]

theorem length_mod_eq_zero_iff_dvd (a t : Nat) : a % t = 0 ↔ t ∣ a := by
  constructor
  · exact Nat.dvd_of_mod_eq_zero
  · rintro ⟨c, rfl⟩
    exact Nat.mul_mod_right t c

/-- Claim C4: whenever the learner recomputes (review count a positive
multiple of the threshold), the few-shot example set equals the last 3
accept-labelled final texts of the history, in insertion order, each wrapped
as an example record; and appending an edit- or reject-labelled record never
contributes an accepted text. -/
theorem few_shot_examples_recent_accepts (history : List ReviewRow)
    (hfire : 0 < history.length ∧ LEARNING_THRESHOLD ∣ history.length) :
    (ctxAfter LEARNING_THRESHOLD history).few_shot_examples
      = (lastN 3 (acceptedTexts history)).map (fun s => ⟨s⟩) ∧
    (∀ rows r, r.status ≠ Action.accept →
      acceptedTexts (rows ++ [r]) = acceptedTexts rows) := by
  constructor
  · rw [ctxAfter_fired LEARNING_THRESHOLD history
      ⟨(length_mod_eq_zero_iff_dvd _ _).mpr hfire.2, hfire.1⟩]
    rfl
  · intro rows r hr
    rw [acceptedTexts_concat]
    simp [hr]

/-- A concrete five-review history: four accepts then one reject. -/
def rows5 : List ReviewRow :=
  [⟨1, .accept, "d1", "a"⟩, ⟨2, .accept, "d2", "b"⟩, ⟨3, .accept, "d3", "c"⟩,
   ⟨4, .accept, "d4", "d"⟩, ⟨5, .reject, "d5", "r"⟩]

/-- Witness for C4: after five reviews with accepted finals a, b, c, d the
few-shot set is the last three, b, c, d, in order. -/
theorem few_shot_examples_recent_accepts_witness :
    (ctxAfter LEARNING_THRESHOLD rows5).few_shot_examples = [⟨"b"⟩, ⟨"c"⟩, ⟨"d"⟩] := by
  rw [(few_shot_examples_recent_accepts rows5 ⟨by decide, by decide⟩).1]
  decide

/-- Claim C5: the learned context is recomputed wholesale from the entire
review history exactly when the completed-review count is a positive multiple
of the threshold; at any other count `update_learning_models` leaves the
style guide, few-shot examples and error patterns untouched. -/
theorem learned_context_recompute_cadence (threshold : Nat) (history : List ReviewRow) :
    ((¬ (0 < history.length ∧ threshold ∣ history.length)) →
      ∀ ctx, update_learning_models threshold history ctx = ctx) ∧
    ((0 < history.length ∧ threshold ∣ history.length) →
      ctxAfter threshold history = recompute_from_history history) := by
  constructor
  · intro hnot ctx
    unfold update_learning_models
    rw [if_neg (fun hc => hnot ⟨hc.2, (length_mod_eq_zero_iff_dvd _ _).mp hc.1⟩)]
  · intro hfire
    exact ctxAfter_fired threshold history
      ⟨(length_mod_eq_zero_iff_dvd _ _).mpr hfire.2, hfire.1⟩

/-- Witness for C5: a count of 3 with threshold 5 changes nothing; a count of
5 recomputes from the whole history. -/
theorem learned_context_recompute_cadence_witness :
    update_learning_models 5 (rows5.take 3) initialCtx = initialCtx ∧
    ctxAfter 5 rows5 = recompute_from_history rows5 :=
  ⟨(learned_context_recompute_cadence 5 (rows5.take 3)).1 (by decide) initialCtx,
   (learned_context_recompute_cadence 5 rows5).2 ⟨by decide, by decide⟩⟩

/-- Claim C8: the normalizer is total (`ingest_node : HotelState → HotelState`
is a total function), defaults every missing numeric field to 0 and every
missing string field to "Unknown", always renders `location` as
"{city}, {country}" from the resolved values, and emits all six score keys. -/
theorem normalizer_defaults (st : HotelState) :
    (st.hotel_data.lookup "star_rating" = none →
      ((ingest_node st).hotel_data.lookup "star_rating") = some (.num 0)) ∧
    (st.hotel_data.lookup "hotel_name" = none →
      ((ingest_node st).hotel_data.lookup "name") = some (.str "Unknown")) ∧
    (st.hotel_data.lookup "city" = none →
      ((ingest_node st).hotel_data.lookup "city") = some (.str "Unknown")) ∧
    (st.hotel_data.lookup "country" = none →
      ((ingest_node st).hotel_data.lookup "country") = some (.str "Unknown")) ∧
    (∀ cv kv, (ingest_node st).hotel_data.lookup "city" = some cv →
      (ingest_node st).hotel_data.lookup "country" = some kv →
      (ingest_node st).hotel_data.lookup "location"
        = some (.str (cv.render ++ ", " ++ kv.render))) ∧
    (∃ sd, (ingest_node st).hotel_data.lookup "scores" = some (.vdict sd) ∧
      (∀ k, k ∈ ["cleanliness", "comfort", "facilities", "location", "staff", "value"] →
        ∃ v, sd.lookup k = some v) ∧
      (st.hotel_data.lookup "cleanliness_base" = none →
        sd.lookup "cleanliness" = some (.num 0)) ∧
      (st.hotel_data.lookup "comfort_base" = none →
        sd.lookup "comfort" = some (.num 0)) ∧
      (st.hotel_data.lookup "facilities_base" = none →
        sd.lookup "facilities" = some (.num 0)) ∧
      (st.hotel_data.lookup "location_base" = none →
        sd.lookup "location" = some (.num 0)) ∧
      (st.hotel_data.lookup "staff_base" = none →
        sd.lookup "staff" = some (.num 0)) ∧
      (st.hotel_data.lookup "value_for_money_base" = none →
        sd.lookup "value" = some (.num 0))) := by
  refine ⟨fun h => ?_, fun h => ?_, fun h => ?_, fun h => ?_, fun cv kv hc hk => ?_, ?_⟩
  · simp [ingest_node, List.lookup, dget, h]
  · simp [ingest_node, List.lookup, dget, h]
  · simp [ingest_node, List.lookup, dget, h]
  · simp [ingest_node, List.lookup, dget, h]
  · simp only [ingest_node, List.lookup, dget] at hc hk ⊢
    simp_all
  · refine ⟨[("cleanliness", dget st.hotel_data "cleanliness_base" (.num 0)),
       ("comfort", dget st.hotel_data "comfort_base" (.num 0)),
       ("facilities", dget st.hotel_data "facilities_base" (.num 0)),
       ("location", dget st.hotel_data "location_base" (.num 0)),
       ("staff", dget st.hotel_data "staff_base" (.num 0)),
       ("value", dget st.hotel_data "value_for_money_base" (.num 0))],
      by simp [ingest_node, List.lookup], fun k hk => ?_,
      fun h => by simp [List.lookup, dget, h], fun h => by simp [List.lookup, dget, h],
      fun h => by simp [List.lookup, dget, h], fun h => by simp [List.lookup, dget, h],
      fun h => by simp [List.lookup, dget, h], fun h => by simp [List.lookup, dget, h]⟩
    fin_cases hk <;> exact ⟨_, rfl⟩

/-- Witness for C8 on the fully-missing raw record: the star rating defaults
to 0 and the location renders from the two "Unknown" defaults. -/
theorem normalizer_defaults_witness :
    ((ingest_node sampleGateState).hotel_data.lookup "star_rating") = some (.num 0) ∧
    ((ingest_node sampleGateState).hotel_data.lookup "location")
      = some (.str "Unknown, Unknown") :=
  ⟨(normalizer_defaults sampleGateState).1 rfl,
   (normalizer_defaults sampleGateState).2.2.2.2.1 (.str "Unknown") (.str "Unknown") rfl rfl⟩

end HITL
